import Mathlib

/-!
# Verification of the IS601_Assignment11 authentication core and calculator factory

Shallow embedding of `app/auth/security.py`, `app/auth/dependencies.py`,
`app/factory/calculation_factory.py` and the `User` model of
`app/models/user_model.py`, together with proofs of the specified
properties of the Credential Hasher, Token Codec, Authenticator,
Session Guard and Operation Dispatcher.
-/

deriving instance DecidableEq for Except

namespace IS601

/-! ## Python-level values

`JVal` models the values stored in a JWT claims dictionary: strings and
datetime/integer values (the `exp` claim).  `JDict` models a Python `dict`
as an insertion-ordered association list. -/

inductive JVal
  | str (s : String)
  | time (t : Int)
  deriving DecidableEq, Repr

abbrev JDict := List (String × JVal)

/-- `d.get(k)` / `d[k]`: first binding of `k` (keys are unique in a Python dict). -/
def dictGet (d : JDict) (k : String) : Option JVal :=
  (d.find? (fun p => p.1 == k)).map (·.2)

/-- `d.update({k: v})` / `d[k] = v`: replace an existing binding in place,
otherwise append (Python dicts keep insertion order). -/
def dictSet (d : JDict) (k : String) (v : JVal) : JDict :=
  if d.any (fun p => p.1 == k) then
    d.map (fun p => if p.1 == k then (k, v) else p)
  else
    d ++ [(k, v)]

/-- A bcrypt digest as produced by `pwd_context.hash`: the digest string
embeds the salt used and the derived tag.  Modelled structurally so that
`verify` can recover the salt the way passlib parses it from the digest. -/
structure Digest where
  salt : Nat
  tag : Nat
  deriving DecidableEq, Repr

/-- A Python value handed to the password helpers: an ordinary string, a
string that holds a well-formed password digest, `None`, or an int.
(`vdigest` is still a `str` at the Python level; the split lets the model
talk about the digest's embedded salt without string parsing.) -/
inductive PyVal
  | vstr (s : String)
  | vdigest (d : Digest)
  | vnone
  | vint (n : Int)
  deriving DecidableEq, Repr

/-! ## Configuration (`app/core/config.py` defaults) -/

def SECRET_KEY : String := "super_secret_key_123"

def ALGORITHM : String := "HS256"

def ACCESS_TOKEN_EXPIRE_MINUTES : Int := 30

/-! ## Credential Hasher (`app/auth/security.py`)

bcrypt is modelled as a fixed keyed tag function of the password and a
salt drawn fresh per call (the `salt` argument stands for the randomness
passlib supplies); the salt is embedded in the digest, exactly as in
the bcrypt digest format.  The hashing backend is modelled as total, so
the `RuntimeError("Password hashing failed")` wrapper branch of the
source is unreachable in the model. -/

/-- Python `s.strip()`: drop leading and trailing whitespace.  (Defined on
the character list so that it evaluates by kernel reduction.) -/
def pyStrip (s : String) : String :=
  ⟨((s.data.dropWhile Char.isWhitespace).reverse.dropWhile
      Char.isWhitespace).reverse⟩

/-- Python `s.lower()` (ASCII case folding). -/
def pyLower (s : String) : String := ⟨s.data.map Char.toLower⟩

/-- The bcrypt-class derivation: some fixed one-way tag of password and salt. -/
def strHashTag (s : String) (salt : Nat) : Nat :=
  s.data.foldl (fun acc c => acc * 131 + c.toNat) (salt * 7 + 3)

/-- The string content a `PyVal` has when it is a `str`, `none` otherwise
(`isinstance(x, str)` succeeds exactly when this is `some`). -/
def pyValAsStr? : PyVal → Option String
  | .vstr s => some s
  | .vdigest d => some ("b2$" ++ toString d.salt ++ "$" ++ toString d.tag)
  | .vnone => none
  | .vint _ => none

/-- `hash_password` (security.py:32-45): rejects non-`str` input and input
whose `strip()` is empty with `ValueError("Password must be a non-empty
string")`; otherwise returns the bcrypt digest of the password under a
fresh salt.  Errors are the raised exception's message. -/
def hash_password (password : PyVal) (salt : Nat) : Except String Digest :=
  match pyValAsStr? password with
  | none => .error "Password must be a non-empty string"
  | some s =>
    if pyStrip s = "" then .error "Password must be a non-empty string"
    else .ok ⟨salt, strHashTag s salt⟩

/-- `pwd_context.verify`: parse the salt out of the digest, recompute the
tag and compare; a string that is not a well-formed digest makes passlib
raise, which `verify_password` catches and turns into `False`. -/
def pwdContextVerify (plain : String) (hashed : PyVal) : Bool :=
  match hashed with
  | .vdigest d => strHashTag plain d.salt == d.tag
  | _ => false

/-- `verify_password` (security.py:48-61): `False` for non-`str` inputs,
`False` when the underlying comparison raises, the comparison otherwise. -/
def verify_password (plain hashed : PyVal) : Bool :=
  match pyValAsStr? plain, pyValAsStr? hashed with
  | some p, some _ => pwdContextVerify p hashed
  | _, _ => false

/-! ## Token Codec (`app/auth/security.py`)

A JWT on the wire is either the empty string, a malformed/tampered blob,
or a structurally valid token signed with some secret and algorithm.
`crashy` is the token on which the decode backend raises an exception
unrelated to token validity (the tests produce it by monkeypatching
`jwt.decode`); it gives the model an inhabitant of the
wholly-unexpected-internal-error channel. -/

inductive TokenBytes
  | empty
  | garbage (s : String)
  | signed (payload : JDict) (secret : String) (alg : String)
  | crashy
  deriving DecidableEq, Repr

/-- The exceptions `jwt.decode` can raise, as `decode_access_token`
distinguishes them. -/
inductive PyJwtExc
  | expiredSignatureError
  | invalidTokenError
  | otherError
  deriving DecidableEq, Repr

/-- PyJWT's `jwt.decode(token, secret, algorithms=[alg])` at time `now`:
malformed tokens and signature mismatches raise `InvalidTokenError`;
a well-formed `exp` claim in the past raises `ExpiredSignatureError`
(PyJWT rejects when `exp <= now`); a non-integer `exp` claim is a decode
error; a token without `exp` is not expiry-checked. -/
def jwtDecode (token : TokenBytes) (secret alg : String) (now : Int) :
    Except PyJwtExc JDict :=
  match token with
  | .empty => .error .invalidTokenError
  | .garbage _ => .error .invalidTokenError
  | .crashy => .error .otherError
  | .signed payload s a =>
    if s == secret && a == alg then
      match dictGet payload "exp" with
      | some (.time e) =>
        if e ≤ now then .error .expiredSignatureError else .ok payload
      | some (.str _) => .error .invalidTokenError
      | none => .ok payload
    else .error .invalidTokenError

/-- `decode_access_token` (security.py:91-110): expired and invalid tokens
both collapse to `RuntimeError("Invalid or expired token")`; any other
exception becomes `RuntimeError("Token decode failure")`. -/
def decode_access_token (token : TokenBytes) (now : Int) : Except String JDict :=
  match jwtDecode token SECRET_KEY ALGORITHM now with
  | .ok payload => .ok payload
  | .error .expiredSignatureError => .error "Invalid or expired token"
  | .error .invalidTokenError => .error "Invalid or expired token"
  | .error .otherError => .error "Token decode failure"

/-! ### Token creation

`create_access_token` mutates the dict bound to its local `payload`
variable, so the claims dicts live on a small heap of cells and the
function receives a reference to the caller's dict; `data.copy()`
allocates a fresh cell, `payload.update({...})` writes through the
`payload` reference.  This keeps the aliasing structure of the source
observable. -/

abbrev Heap := List JDict

def hget (h : Heap) (r : Nat) : JDict := h.getD r []

def hset (h : Heap) (r : Nat) (d : JDict) : Heap := h.set r d

/-- `create_access_token` (security.py:67-85): `payload = data.copy()`,
compute `expire = now + (expires_delta or 30 minutes)`, then
`payload.update({"exp": expire})` and sign `payload`.  Returns the heap
after the call together with the issued token.  The encode backend is
modelled as total, so the `RuntimeError("JWT creation failed")` branch
is unreachable in the model. -/
def create_access_token (h : Heap) (data : Nat) (expires_delta : Option Int)
    (now : Int) : Heap × TokenBytes :=
  let payload : Nat := h.length
  let h1 : Heap := h ++ [hget h data]
  let expire : Int := now + (expires_delta.getD (ACCESS_TOKEN_EXPIRE_MINUTES * 60))
  let h2 : Heap := hset h1 payload (dictSet (hget h1 payload) "exp" (.time expire))
  (h2, .signed (hget h2 payload) SECRET_KEY ALGORITHM)

/-! ## Account model (`app/models/user_model.py`) and DB queries

The store is a list of rows; SQLAlchemy's `.first()` on a filter is the
first row satisfying the predicate. -/

structure User where
  id : Int
  username : String
  email : String
  password_hash : PyVal
  is_active : Bool
  deriving DecidableEq, Repr

abbrev DB := List User

/-- `db.query(User).filter((User.username == identifier) | (User.email ==
identifier)).first()` — SQL string comparison here is exact and
case-sensitive. -/
def firstByUsernameOrEmail (db : DB) (identifier : String) : Option User :=
  db.find? (fun u => u.username == identifier || u.email == identifier)

/-- `db.query(User).filter(User.id == i).first()`. -/
def firstById (db : DB) (i : Int) : Option User :=
  db.find? (fun u => u.id == i)

/-! ## Authenticator and Session Guard (`app/auth/dependencies.py`) -/

/-- `authenticate_user` (dependencies.py:79-92): look the identifier up
against username OR email, return `None` on no match or failed password
verification, the user otherwise.  Never raises. -/
def authenticate_user (db : DB) (identifier : String) (password : PyVal) :
    Option User :=
  match firstByUsernameOrEmail db identifier with
  | none => none
  | some user =>
    if verify_password password user.password_hash then some user else none

structure HTTPException where
  status_code : Nat
  detail : String
  deriving DecidableEq, Repr

/-- `verify_access_token` (dependencies.py:66-73): any `RuntimeError` from
the codec — including `"Token decode failure"` — becomes HTTP 401
`"Invalid or expired token"`. -/
def verify_access_token (token : TokenBytes) (now : Int) :
    Except HTTPException JDict :=
  match decode_access_token token now with
  | .ok payload => .ok payload
  | .error _ => .error ⟨401, "Invalid or expired token"⟩

/-- Python truthiness of a claim value (`if not sub`). -/
def pyTruthy : JVal → Bool
  | .str s => s ≠ ""
  | .time t => t ≠ 0

/-- A non-empty all-digit character sequence read as a number. -/
def digitsToNat? (cs : List Char) : Option Nat :=
  if cs ≠ [] ∧ cs.all Char.isDigit then
    some (cs.foldl (fun n c => n * 10 + (c.toNat - 48)) 0)
  else none

/-- Python `int(s)` on a string: optional surrounding whitespace, optional
sign, at least one digit; raises `ValueError` (here `none`) otherwise. -/
def pyStrToInt? (s : String) : Option Int :=
  match (pyStrip s).data with
  | '-' :: rest => (digitsToNat? rest).map (fun n => -(n : Int))
  | '+' :: rest => (digitsToNat? rest).map (fun n => (n : Int))
  | cs => digitsToNat? cs

/-- Python `int(x)` on a claim value. -/
def pyIntOf : JVal → Option Int
  | .str s => pyStrToInt? s
  | .time t => some t

/-- Result of the Session Guard: success, an `HTTPException`, or an
uncaught Python exception escaping the function (`int(sub)` raising
`ValueError` on a non-numeric subject). -/
inductive GuardResult
  | ok (u : User)
  | httpError (e : HTTPException)
  | valueError
  deriving DecidableEq, Repr

/-- `get_current_user` (dependencies.py:98-134): empty token → 401
`"Invalid or expired token"`; codec failure → 401 `"Invalid or expired
token"`; absent or falsy `sub` → 401 `"Missing user id in token"`;
`int(sub)` not resolving to a stored user → 401 `"User not found"`;
otherwise the user.  A non-numeric `sub` makes `int(sub)` raise an
uncaught `ValueError`. -/
def get_current_user (token : TokenBytes) (db : DB) (now : Int) : GuardResult :=
  if token = .empty then .httpError ⟨401, "Invalid or expired token"⟩
  else
    match decode_access_token token now with
    | .error _ => .httpError ⟨401, "Invalid or expired token"⟩
    | .ok payload =>
      match dictGet payload "sub" with
      | none => .httpError ⟨401, "Missing user id in token"⟩
      | some sub =>
        if pyTruthy sub = false then .httpError ⟨401, "Missing user id in token"⟩
        else
          match pyIntOf sub with
          | none => .valueError
          | some i =>
            match firstById db i with
            | none => .httpError ⟨401, "User not found"⟩
            | some user => .ok user

/-! ## Operation Dispatcher (`app/factory/calculation_factory.py`)

The four operation classes are an enumerated type; `compute` returns
`Except` so that "never fails" is expressible.  Operands are rationals:
the source computes on Python numbers with true (non-floor) division. -/

inductive Operation
  | add
  | subtract
  | multiply
  | divide
  deriving DecidableEq, Repr

/-- `AddOperation.compute` (calculation_factory.py:27-32). -/
def AddOperation.compute (a b : ℚ) : Except String ℚ := .ok (a + b)

/-- `SubtractOperation.compute` (calculation_factory.py:35-40). -/
def SubtractOperation.compute (a b : ℚ) : Except String ℚ := .ok (a - b)

/-- `MultiplyOperation.compute` (calculation_factory.py:43-48). -/
def MultiplyOperation.compute (a b : ℚ) : Except String ℚ := .ok (a * b)

/-- `DivideOperation.compute` (calculation_factory.py:51-59): raises
`ValueError("Division by zero")` when `b == 0`, else true division. -/
def DivideOperation.compute (a b : ℚ) : Except String ℚ :=
  if b = 0 then .error "Division by zero" else .ok (a / b)

/-- The `CalculationFactory.OPERATIONS` synonym table
(calculation_factory.py:75-97); all keys lowercase, keys unique. -/
def OPERATIONS : List (String × Operation) :=
  [("add", .add), ("addition", .add), ("plus", .add),
   ("subtract", .subtract), ("sub", .subtract), ("minus", .subtract),
   ("subtraction", .subtract),
   ("multiply", .multiply), ("mul", .multiply), ("times", .multiply),
   ("multiplication", .multiply),
   ("divide", .divide), ("div", .divide), ("division", .divide)]

namespace CalculationFactory

/-- `CalculationFactory.create` (calculation_factory.py:99-119):
`key = op_type.strip().lower()`, then dictionary lookup, raising
`ValueError("Unsupported calculation type")` on a miss. -/
def create (op_type : String) : Except String Operation :=
  let key := pyLower (pyStrip op_type)
  match (OPERATIONS.find? (fun p => p.1 == key)).map (·.2) with
  | some op => .ok op
  | none => .error "Unsupported calculation type"

end CalculationFactory

/-! ## Shared lemmas -/

/-- A payload passes PyJWT's expiry check: if an `exp` claim is present it
is an integer instant strictly in the future. -/
def expClaimValid (payload : JDict) (now : Int) : Prop :=
  ∀ v, dictGet payload "exp" = some v → ∃ e, v = .time e ∧ now < e

/-- Decoding succeeds only on a token signed with the configured secret and
algorithm whose payload is the decoded claims, with any `exp` claim in the
future. -/
theorem decode_access_token_ok (token : TokenBytes) (now : Int) (payload : JDict)
    (h : decode_access_token token now = .ok payload) :
    token = .signed payload SECRET_KEY ALGORITHM ∧ expClaimValid payload now := by
  cases token with
  | empty => simp [decode_access_token, jwtDecode] at h
  | garbage s => simp [decode_access_token, jwtDecode] at h
  | crashy => simp [decode_access_token, jwtDecode] at h
  | signed p sec alg =>
    simp only [decode_access_token, jwtDecode] at h
    by_cases hb : (sec == SECRET_KEY && alg == ALGORITHM) = true
    · obtain ⟨hs, ha⟩ := Bool.and_eq_true_iff.mp hb
      rw [if_pos hb] at h
      cases hexp : dictGet p "exp" with
      | none =>
        rw [hexp] at h
        simp only [Except.ok.injEq] at h
        subst h
        exact ⟨by rw [beq_iff_eq.mp hs, beq_iff_eq.mp ha],
               fun v hv => by rw [hexp] at hv; cases hv⟩
      | some v =>
        rw [hexp] at h
        cases v with
        | str s => simp at h
        | time e =>
          by_cases he : e ≤ now
          · simp [he] at h
          · simp only [he, if_false] at h
            simp only [Except.ok.injEq] at h
            subst h
            refine ⟨by rw [beq_iff_eq.mp hs, beq_iff_eq.mp ha], fun v hv => ?_⟩
            rw [hexp] at hv
            cases hv
            exact ⟨e, rfl, lt_of_not_le he⟩
    · rw [if_neg hb] at h; simp at h

/-! ## Claim theorems -/

/-- C4: `decode_access_token` fails with the single classification
`"Invalid or expired token"` exactly for invalid/malformed signatures
(including mutated tokens and wrong secret/algorithm) and for expiry in
the past — indistinguishable to the caller — and with the distinct
classification `"Token decode failure"` only for wholly unexpected
internal errors; a well-formed, correctly signed, unexpired token
decodes to its claims. -/
theorem decode_access_token_spec (now : Int) :
    (∀ payload, expClaimValid payload now →
        decode_access_token (.signed payload SECRET_KEY ALGORITHM) now = .ok payload)
  ∧ (∀ s, decode_access_token (.garbage s) now = .error "Invalid or expired token")
  ∧ decode_access_token .empty now = .error "Invalid or expired token"
  ∧ (∀ payload sec alg, ¬(sec = SECRET_KEY ∧ alg = ALGORITHM) →
      decode_access_token (.signed payload sec alg) now
        = .error "Invalid or expired token")
  ∧ (∀ payload e, dictGet payload "exp" = some (.time e) → e ≤ now →
      decode_access_token (.signed payload SECRET_KEY ALGORITHM) now
        = .error "Invalid or expired token")
  ∧ decode_access_token .crashy now = .error "Token decode failure"
  ∧ (∀ token, decode_access_token token now = .error "Token decode failure" →
      token = .crashy) := by
  refine ⟨?_, fun s => rfl, rfl, ?_, ?_, rfl, ?_⟩
  · intro payload hv
    simp only [decode_access_token, jwtDecode, beq_self_eq_true, Bool.and_self, if_true]
    cases hexp : dictGet payload "exp" with
    | none => rfl
    | some v =>
      obtain ⟨e, rfl, he⟩ := hv v hexp
      simp [not_le.mpr he]
  · intro payload sec alg hne
    have hb : (sec == SECRET_KEY && alg == ALGORITHM) = false := by
      rcases Decidable.not_and_iff_or_not.mp hne with hs | ha
      · simp [beq_iff_eq, hs]
      · simp [beq_iff_eq, ha]
    simp [decode_access_token, jwtDecode, hb]
  · intro payload e hexp he
    simp [decode_access_token, jwtDecode, hexp, he]
  · intro token ht
    cases token with
    | empty => simp [decode_access_token, jwtDecode] at ht
    | garbage s => simp [decode_access_token, jwtDecode] at ht
    | crashy => rfl
    | signed p sec alg =>
      simp only [decode_access_token, jwtDecode] at ht
      by_cases hb : (sec == SECRET_KEY && alg == ALGORITHM) = true
      · rw [if_pos hb] at ht
        cases hexp : dictGet p "exp" with
        | none => rw [hexp] at ht; simp at ht
        | some v =>
          rw [hexp] at ht
          cases v with
          | str s => simp at ht
          | time e =>
            by_cases he : e ≤ now
            · simp [he] at ht
            · simp [he] at ht
      · rw [if_neg hb] at ht; simp at ht

/-- C4 witness: a correctly signed unexpired token decodes to its claims;
an expired token and a tampered token both fail with the same
`"Invalid or expired token"` classification. -/
theorem decode_access_token_spec_witness :
    decode_access_token
        (.signed [("sub", .str "1"), ("exp", .time 100)] SECRET_KEY ALGORITHM) 0
      = .ok [("sub", .str "1"), ("exp", .time 100)]
  ∧ decode_access_token
        (.signed [("sub", .str "1"), ("exp", .time 100)] SECRET_KEY ALGORITHM) 100
      = .error "Invalid or expired token"
  ∧ decode_access_token (.garbage "tampered-tail") 0
      = .error "Invalid or expired token" := by
  refine ⟨(decode_access_token_spec 0).1 _ ?_,
          (decode_access_token_spec 100).2.2.2.2.1 _ 100 ?_ le_rfl,
          (decode_access_token_spec 0).2.1 "tampered-tail"⟩
  · intro v hv
    rw [show dictGet [("sub", JVal.str "1"), ("exp", JVal.time 100)] "exp"
          = some (JVal.time 100) from rfl] at hv
    cases hv
    exact ⟨100, rfl, by norm_num⟩
  · rfl

/-- C3 counterexample: on the token whose decode raises an unexpected
internal error, the codec does raise the distinct
`"Token decode failure"`, but `verify_access_token` and
`get_current_user` surface it as exactly the same 401
`"Invalid or expired token"` used for a routine malformed token — the
internal failure is conflated at the authenticated-request boundary. -/
theorem internal_failure_conflated_cex :
    decode_access_token .crashy 0 = .error "Token decode failure"
  ∧ verify_access_token .crashy 0 = .error ⟨401, "Invalid or expired token"⟩
  ∧ verify_access_token (.garbage "bad") 0 = .error ⟨401, "Invalid or expired token"⟩
  ∧ get_current_user .crashy [] 0 = .httpError ⟨401, "Invalid or expired token"⟩
  ∧ get_current_user (.garbage "bad") [] 0
      = .httpError ⟨401, "Invalid or expired token"⟩ := by
  exact ⟨rfl, rfl, rfl, rfl, rfl⟩

/-- C3 amended: `decode_access_token` does raise internal decode failures
as the distinct `"Token decode failure"`, but `verify_access_token` and
`get_current_user` catch every `RuntimeError` alike, so at the
authenticated-request boundary an internal decode failure is surfaced as
the same uniform 401 `"Invalid or expired token"` response used for
routine bad/expired tokens. -/
theorem internal_failure_conflated (token : TokenBytes) (db : DB) (now : Int)
    (h : decode_access_token token now = .error "Token decode failure") :
    verify_access_token token now = .error ⟨401, "Invalid or expired token"⟩
  ∧ get_current_user token db now = .httpError ⟨401, "Invalid or expired token"⟩ := by
  constructor
  · simp [verify_access_token, h]
  · have hne : token ≠ .empty := by
      rintro rfl
      rw [show decode_access_token .empty now = .error "Invalid or expired token"
            from rfl] at h
      simp at h
    simp [get_current_user, hne, h]

/-- C3 witness for `internal_failure_conflated` at the concrete
internal-error token. -/
theorem internal_failure_conflated_witness :
    verify_access_token .crashy 5 = .error ⟨401, "Invalid or expired token"⟩
  ∧ get_current_user .crashy [] 5 = .httpError ⟨401, "Invalid or expired token"⟩ :=
  internal_failure_conflated .crashy [] 5 rfl

/-- C5 counterexample: `" "` is a non-empty string, yet `hash_password`
rejects it (`password.strip()` is empty), so the round-trip property as
stated over all non-empty strings fails. -/
theorem hash_verify_roundtrip_cex :
    ¬ ∀ p : String, p ≠ "" →
        ∃ d, hash_password (.vstr p) 0 = .ok d
          ∧ verify_password (.vstr p) (.vdigest d) = true := by
  intro hall
  obtain ⟨d, hd, -⟩ := hall " " (by decide)
  rw [show hash_password (.vstr " ") 0
        = .error "Password must be a non-empty string" from rfl] at hd
  cases hd

/-- C5 amended: for every string password whose whitespace-strip is
non-empty (so `hash_password` succeeds), the produced digest verifies
against the password; moreover a second call under a different salt
produces a different digest that still verifies against the password. -/
theorem hash_verify_roundtrip (p : String) (salt : Nat) (d : Digest)
    (h : hash_password (.vstr p) salt = .ok d) :
    verify_password (.vstr p) (.vdigest d) = true
  ∧ ∀ salt' d', salt' ≠ salt → hash_password (.vstr p) salt' = .ok d' →
      d' ≠ d ∧ verify_password (.vstr p) (.vdigest d') = true := by
  simp only [hash_password, pyValAsStr?] at h
  by_cases hp : pyStrip p = ""
  · simp [hp] at h
  · simp only [hp, if_false, Except.ok.injEq] at h
    subst h
    refine ⟨by simp [verify_password, pyValAsStr?, pwdContextVerify], ?_⟩
    intro salt' d' hss h'
    simp only [hash_password, pyValAsStr?, hp, if_false, Except.ok.injEq] at h'
    subst h'
    exact ⟨by simp [hss], by simp [verify_password, pyValAsStr?, pwdContextVerify]⟩

/-- C5 witness: the concrete password `"Secret123"` hashed under two salts
gives two digests, each of which verifies. -/
theorem hash_verify_roundtrip_witness :
    verify_password (.vstr "Secret123")
        (.vdigest ⟨0, strHashTag "Secret123" 0⟩) = true
  ∧ verify_password (.vstr "Secret123")
        (.vdigest ⟨1, strHashTag "Secret123" 1⟩) = true
  ∧ (⟨1, strHashTag "Secret123" 1⟩ : Digest) ≠ ⟨0, strHashTag "Secret123" 0⟩ := by
  have h := hash_verify_roundtrip "Secret123" 0 ⟨0, strHashTag "Secret123" 0⟩ rfl
  obtain ⟨hne, hv⟩ := h.2 1 ⟨1, strHashTag "Secret123" 1⟩ (by decide) rfl
  exact ⟨h.1, hv, hne⟩

/-- C9 counterexample: `" "` is a non-empty string but `hash_password`
fails on it with the validation error, refuting that the error occurs
exactly when the input is not a non-empty string. -/
theorem hash_password_validation_cex :
    hash_password (.vstr " ") 1 = .error "Password must be a non-empty string"
  ∧ (" " : String) ≠ "" := by
  exact ⟨rfl, by decide⟩

/-- C9 amended: `hash_password` fails, always with the fixed message
`"Password must be a non-empty string"`, exactly when the input is not a
string or strips to the empty string (empty or whitespace-only); for
every string input with non-empty strip it returns the digest. -/
theorem hash_password_validation (v : PyVal) (salt : Nat) :
    (hash_password v salt = .error "Password must be a non-empty string" ↔
      ∀ s, pyValAsStr? v = some s → pyStrip s = "")
  ∧ (∀ e, hash_password v salt = .error e →
      e = "Password must be a non-empty string")
  ∧ (∀ s, pyValAsStr? v = some s → pyStrip s ≠ "" →
      hash_password v salt = .ok ⟨salt, strHashTag s salt⟩) := by
  refine ⟨?_, ?_, ?_⟩
  · cases hs : pyValAsStr? v with
    | none =>
      simp [hash_password, hs]
    | some s =>
      simp only [hash_password, hs]
      constructor
      · intro h t ht
        cases ht
        by_cases hp : pyStrip s = ""
        · exact hp
        · simp [hp] at h
      · intro h
        simp [h s rfl]
  · intro e he
    simp only [hash_password] at he
    cases hs : pyValAsStr? v with
    | none => rw [hs] at he; cases he; rfl
    | some s =>
      rw [hs] at he
      dsimp only at he
      by_cases hp : pyStrip s = ""
      · rw [if_pos hp] at he; cases he; rfl
      · rw [if_neg hp] at he; cases he
  · intro s hs hp
    simp [hash_password, hs, hp]

/-- C9 witness: `""` and `None` fail with the validation error; a
non-empty (after strip) string input hashes to a digest. -/
theorem hash_password_validation_witness :
    hash_password (.vstr "") 0 = .error "Password must be a non-empty string"
  ∧ hash_password .vnone 0 = .error "Password must be a non-empty string"
  ∧ hash_password (.vstr "Secret123") 0
      = .ok ⟨0, strHashTag "Secret123" 0⟩ := by
  refine ⟨?_, ?_, (hash_password_validation (.vstr "Secret123") 0).2.2
            "Secret123" rfl (by decide)⟩
  · exact (hash_password_validation (.vstr "") 0).1.mpr
      (fun s h => by cases h; decide)
  · exact (hash_password_validation .vnone 0).1.mpr (fun s h => by cases h)

/-- C6: `authenticate_user` matches the identifier against username OR
email (exact and case-sensitive; a stored account matching on either
field is found), returns `None` when no account matches, returns `None`
when the password fails verification against the stored digest, and
returns the account exactly when one matches and the password
verifies. -/
theorem authenticate_user_spec (db : DB) (identifier : String) (password : PyVal) :
    (firstByUsernameOrEmail db identifier = none →
        authenticate_user db identifier password = none)
  ∧ (∀ u, firstByUsernameOrEmail db identifier = some u →
      (u.username = identifier ∨ u.email = identifier)
      ∧ (verify_password password u.password_hash = false →
          authenticate_user db identifier password = none)
      ∧ (verify_password password u.password_hash = true →
          authenticate_user db identifier password = some u))
  ∧ (∀ u, authenticate_user db identifier password = some u →
      u ∈ db ∧ (u.username = identifier ∨ u.email = identifier)
      ∧ verify_password password u.password_hash = true)
  ∧ ((∃ u ∈ db, u.username = identifier ∨ u.email = identifier) →
      ∃ v, firstByUsernameOrEmail db identifier = some v) := by
  refine ⟨?_, ?_, ?_, ?_⟩
  · intro h
    simp [authenticate_user, h]
  · intro u hu
    have hp := List.find?_some hu
    simp only [Bool.or_eq_true, beq_iff_eq] at hp
    exact ⟨hp, (fun hv => by simp [authenticate_user, hu, hv]),
           (fun hv => by simp [authenticate_user, hu, hv])⟩
  · intro u h
    simp only [authenticate_user] at h
    cases hf : firstByUsernameOrEmail db identifier with
    | none => rw [hf] at h; cases h
    | some u' =>
      rw [hf] at h
      dsimp only at h
      by_cases hv : verify_password password u'.password_hash = true
      · rw [if_pos hv] at h
        cases h
        have hp := List.find?_some hf
        simp only [Bool.or_eq_true, beq_iff_eq] at hp
        exact ⟨List.mem_of_find?_eq_some hf, hp, hv⟩
      · rw [if_neg hv] at h; cases h
  · intro ⟨u, hu, hm⟩
    have : (firstByUsernameOrEmail db identifier).isSome := by
      rw [firstByUsernameOrEmail, List.find?_isSome]
      exact ⟨u, hu, by simp [Bool.or_eq_true, beq_iff_eq, hm]⟩
    exact Option.isSome_iff_exists.mp this

/-- C6 witness: on a one-account store, login by username and by email
both return the account when the password verifies; a wrong password
and an unknown identifier both return `None`. -/
theorem authenticate_user_spec_witness :
    authenticate_user [⟨1, "alice", "alice@x.com", .vdigest ⟨3, strHashTag "pw" 3⟩, true⟩]
        "alice" (.vstr "pw")
      = some ⟨1, "alice", "alice@x.com", .vdigest ⟨3, strHashTag "pw" 3⟩, true⟩
  ∧ authenticate_user [⟨1, "alice", "alice@x.com", .vdigest ⟨3, strHashTag "pw" 3⟩, true⟩]
        "alice@x.com" (.vstr "pw")
      = some ⟨1, "alice", "alice@x.com", .vdigest ⟨3, strHashTag "pw" 3⟩, true⟩
  ∧ authenticate_user [⟨1, "alice", "alice@x.com", .vdigest ⟨3, strHashTag "pw" 3⟩, true⟩]
        "alice" (.vstr "wrong")
      = none
  ∧ authenticate_user [⟨1, "alice", "alice@x.com", .vdigest ⟨3, strHashTag "pw" 3⟩, true⟩]
        "ghost" (.vstr "pw")
      = none := by
  refine ⟨?_, ?_, ?_, ?_⟩
  · exact ((authenticate_user_spec
        [⟨1, "alice", "alice@x.com", .vdigest ⟨3, strHashTag "pw" 3⟩, true⟩]
        "alice" (.vstr "pw")).2.1
        ⟨1, "alice", "alice@x.com", .vdigest ⟨3, strHashTag "pw" 3⟩, true⟩
        rfl).2.2 (by decide)
  · exact ((authenticate_user_spec
        [⟨1, "alice", "alice@x.com", .vdigest ⟨3, strHashTag "pw" 3⟩, true⟩]
        "alice@x.com" (.vstr "pw")).2.1
        ⟨1, "alice", "alice@x.com", .vdigest ⟨3, strHashTag "pw" 3⟩, true⟩
        rfl).2.2 (by decide)
  · exact ((authenticate_user_spec
        [⟨1, "alice", "alice@x.com", .vdigest ⟨3, strHashTag "pw" 3⟩, true⟩]
        "alice" (.vstr "wrong")).2.1
        ⟨1, "alice", "alice@x.com", .vdigest ⟨3, strHashTag "pw" 3⟩, true⟩
        rfl).2.1 (by decide)
  · exact (authenticate_user_spec
        [⟨1, "alice", "alice@x.com", .vdigest ⟨3, strHashTag "pw" 3⟩, true⟩]
        "ghost" (.vstr "pw")).1 rfl

/-- C7: `CalculationFactory.create` strips surrounding whitespace and
lower-cases its input before lookup, resolves every enumerated synonym
to its operation (in particular `"  ADD  "` to addition), and raises
`ValueError("Unsupported calculation type")` for every unknown or empty
name such as `"xyz"`. -/
theorem factory_create_spec :
    (∀ p ∈ OPERATIONS, CalculationFactory.create p.1 = .ok p.2)
  ∧ CalculationFactory.create "  ADD  " = .ok .add
  ∧ CalculationFactory.create "xyz" = .error "Unsupported calculation type"
  ∧ CalculationFactory.create "" = .error "Unsupported calculation type"
  ∧ (∀ s, (OPERATIONS.find? fun p => p.1 == pyLower (pyStrip s)) = none →
      CalculationFactory.create s = .error "Unsupported calculation type") := by
  refine ⟨by decide, by decide, by decide, by decide, ?_⟩
  intro s h
  simp [CalculationFactory.create, h]

/-- C7 witness: the unknown name `"xyz"` misses the synonym table and
fails; the synonym `"add"` from the table resolves to addition. -/
theorem factory_create_spec_witness :
    CalculationFactory.create "xyz" = .error "Unsupported calculation type"
  ∧ CalculationFactory.create "add" = .ok .add := by
  exact ⟨factory_create_spec.2.2.2.2 "xyz" (by decide),
         factory_create_spec.1 ("add", .add) (by decide)⟩

/-- C8: the addition, subtraction and multiplication handlers never fail;
the division handler fails with `ValueError("Division by zero")` exactly
when the divisor is zero and otherwise returns the real (non-truncating)
quotient, so `compute(20, 5)` returns `4.0`. -/
theorem operation_compute_spec (a b : ℚ) :
    AddOperation.compute a b = .ok (a + b)
  ∧ SubtractOperation.compute a b = .ok (a - b)
  ∧ MultiplyOperation.compute a b = .ok (a * b)
  ∧ (b = 0 → DivideOperation.compute a b = .error "Division by zero")
  ∧ (b ≠ 0 → DivideOperation.compute a b = .ok (a / b))
  ∧ DivideOperation.compute 20 5 = .ok 4 := by
  refine ⟨rfl, rfl, rfl, ?_, ?_, ?_⟩
  · intro h; simp [DivideOperation.compute, h]
  · intro h; simp [DivideOperation.compute, h]
  · norm_num [DivideOperation.compute]

/-- C8 witness: division by zero fails with the exact message, and
`compute(20, 5)` is `4`. -/
theorem operation_compute_spec_witness :
    DivideOperation.compute 1 0 = .error "Division by zero"
  ∧ DivideOperation.compute 20 5 = .ok 4 :=
  ⟨(operation_compute_spec 1 0).2.2.2.1 rfl,
   (operation_compute_spec 20 5).2.2.2.2.2⟩

/-- C10: `create_access_token` never mutates the caller's claims dict:
the `"exp"` claim is added to a copy, so the caller's cell holds exactly
the same keys and values after the call, and the issued token's payload
is the input claims with `"exp"` set to `now + ttl`. -/
theorem create_access_token_no_mutation (h : Heap) (data : Nat)
    (expires_delta : Option Int) (now : Int) (hd : data < h.length) :
    hget (create_access_token h data expires_delta now).1 data = hget h data
  ∧ (∀ k, dictGet (hget (create_access_token h data expires_delta now).1 data) k
        = dictGet (hget h data) k)
  ∧ (create_access_token h data expires_delta now).2
      = .signed (dictSet (hget h data) "exp"
            (.time (now + expires_delta.getD (ACCESS_TOKEN_EXPIRE_MINUTES * 60))))
          SECRET_KEY ALGORITHM := by
  have hcopy : List.getD (h ++ [List.getD h data []]) h.length []
      = List.getD h data [] := by
    rw [List.getD_eq_getElem?_getD, List.getElem?_concat_length]
    rfl
  have hcell : hget (create_access_token h data expires_delta now).1 data
      = hget h data := by
    simp only [create_access_token, hset, hget]
    rw [List.getD_eq_getElem?_getD, List.getElem?_set_ne (Nat.ne_of_lt hd).symm,
        List.getElem?_append_left hd, ← List.getD_eq_getElem?_getD]
  refine ⟨hcell, fun k => by rw [hcell], ?_⟩
  simp only [create_access_token, hset, hget]
  rw [List.getD_eq_getElem?_getD,
      List.getElem?_set_self (by simp [Nat.lt_succ_self]), Option.getD_some]
  rw [hcopy]

/-- C10 witness: on a concrete heap, the caller's claims dict is unchanged
by the call and the token carries the copy with `"exp"` added. -/
theorem create_access_token_no_mutation_witness :
    hget (create_access_token [[("sub", .str "1")]] 0 none 0).1 0
      = [("sub", JVal.str "1")]
  ∧ (create_access_token [[("sub", .str "1")]] 0 none 0).2
      = .signed [("sub", .str "1"), ("exp", .time 1800)] SECRET_KEY ALGORITHM := by
  have h := create_access_token_no_mutation [[("sub", .str "1")]] 0 none 0
    (by decide)
  exact ⟨h.1, h.2.2⟩

/-- C1 counterexample: an empty token fails with reason
`"Invalid or expired token"` — the same string as a codec failure, not
the claimed distinct `"missing or invalid token"` — and a token whose
decoded subject is non-empty but non-numeric makes the guard raise an
uncaught `ValueError` from `int(sub)`, an outcome outside the claimed
five and not an Unauthenticated failure. -/
theorem session_guard_outcomes_cex :
    get_current_user .empty [] 0 = .httpError ⟨401, "Invalid or expired token"⟩
  ∧ "Invalid or expired token" ≠ "missing or invalid token"
  ∧ get_current_user (.signed [("sub", .str "abc")] SECRET_KEY ALGORITHM) [] 0
      = .valueError := by
  exact ⟨rfl, by decide, by decide⟩

/-- C1 amended: the guard checks its five conditions in the claimed
order, but with these outcomes: an empty token and a codec failure both
fail 401 with the same reason `"Invalid or expired token"`; an absent or
falsy subject fails 401 with `"Missing user id in token"`; a numeric
subject matching no account fails 401 with `"User not found"`; a
non-numeric subject raises an uncaught `ValueError` instead of an
Unauthenticated failure; otherwise the guard returns the resolved
account. -/
theorem session_guard_outcomes (token : TokenBytes) (db : DB) (now : Int) :
    (token = .empty →
        get_current_user token db now
          = .httpError ⟨401, "Invalid or expired token"⟩)
  ∧ (token ≠ .empty → (∃ e, decode_access_token token now = .error e) →
        get_current_user token db now
          = .httpError ⟨401, "Invalid or expired token"⟩)
  ∧ (∀ payload, token ≠ .empty → decode_access_token token now = .ok payload →
      ((dictGet payload "sub" = none ∨
          ∃ sub, dictGet payload "sub" = some sub ∧ pyTruthy sub = false) →
        get_current_user token db now
          = .httpError ⟨401, "Missing user id in token"⟩)
      ∧ (∀ sub, dictGet payload "sub" = some sub → pyTruthy sub = true →
          (pyIntOf sub = none → get_current_user token db now = .valueError)
          ∧ (∀ i, pyIntOf sub = some i →
              (firstById db i = none →
                get_current_user token db now
                  = .httpError ⟨401, "User not found"⟩)
              ∧ (∀ u, firstById db i = some u →
                  get_current_user token db now = .ok u)))) := by
  refine ⟨?_, ?_, ?_⟩
  · intro he; subst he; rfl
  · intro hne he
    obtain ⟨e, he⟩ := he
    simp [get_current_user, hne, he]
  · intro payload hne hok
    refine ⟨?_, ?_⟩
    · rintro (hs | ⟨sub, hs, hf⟩)
      · simp [get_current_user, hne, hok, hs]
      · simp [get_current_user, hne, hok, hs, hf]
    · intro sub hs ht
      refine ⟨fun hi => by simp [get_current_user, hne, hok, hs, ht, hi], ?_⟩
      intro i hi
      exact ⟨fun hf => by simp [get_current_user, hne, hok, hs, ht, hi, hf],
             fun u hu => by simp [get_current_user, hne, hok, hs, ht, hi, hu]⟩

/-- C1 witness: the empty-token branch, and the success branch on a
valid token resolving to a stored account. -/
theorem session_guard_outcomes_witness :
    get_current_user .empty [] 0 = .httpError ⟨401, "Invalid or expired token"⟩
  ∧ get_current_user
        (.signed [("sub", .str "7"), ("exp", .time 50)] SECRET_KEY ALGORITHM)
        [⟨7, "ann", "ann@x.com", .vdigest ⟨1, 2⟩, true⟩] 0
      = .ok ⟨7, "ann", "ann@x.com", .vdigest ⟨1, 2⟩, true⟩ := by
  constructor
  · exact (session_guard_outcomes .empty [] 0).1 rfl
  · exact ((((session_guard_outcomes
        (.signed [("sub", .str "7"), ("exp", .time 50)] SECRET_KEY ALGORITHM)
        [⟨7, "ann", "ann@x.com", .vdigest ⟨1, 2⟩, true⟩] 0).2.2
        [("sub", .str "7"), ("exp", .time 50)]
        (by decide) (by decide)).2 (.str "7") rfl (by decide)).2 7
        (by decide)).2 ⟨7, "ann", "ann@x.com", .vdigest ⟨1, 2⟩, true⟩ rfl

/-- C2 counterexample: a well-formed, correctly signed, unexpired token
whose subject resolves to an existing but INACTIVE account (`is_active =
false`) is accepted by the guard — `get_current_user` never consults
`is_active`; and a signed token carrying no `exp` claim at all is also
accepted, so no future expiry is guaranteed either. -/
theorem accepted_token_invariant_cex :
    get_current_user
        (.signed [("sub", .str "1"), ("exp", .time 100)] SECRET_KEY ALGORITHM)
        [⟨1, "bob", "bob@x.com", .vdigest ⟨0, 0⟩, false⟩] 0
      = .ok ⟨1, "bob", "bob@x.com", .vdigest ⟨0, 0⟩, false⟩
  ∧ (⟨1, "bob", "bob@x.com", .vdigest ⟨0, 0⟩, false⟩ : User).is_active = false
  ∧ get_current_user (.signed [("sub", .str "1")] SECRET_KEY ALGORITHM)
        [⟨1, "bob", "bob@x.com", .vdigest ⟨0, 0⟩, false⟩] 0
      = .ok ⟨1, "bob", "bob@x.com", .vdigest ⟨0, 0⟩, false⟩
  ∧ dictGet [("sub", JVal.str "1")] "exp" = none := by
  exact ⟨by decide, rfl, by decide, rfl⟩

/-- C2 amended: every token the guard accepts is signed with the current
secret and algorithm, any `exp` claim it carries lies in the future, and
its subject claim is non-empty (truthy), parses as an integer, and
resolves to an existing stored account — but that account need not be
active, and a token without an `exp` claim is accepted with no expiry
check. -/
theorem accepted_token_invariant (token : TokenBytes) (db : DB) (now : Int)
    (u : User) (h : get_current_user token db now = .ok u) :
    ∃ payload, token = .signed payload SECRET_KEY ALGORITHM
      ∧ (∀ e, dictGet payload "exp" = some (.time e) → now < e)
      ∧ ∃ sub, dictGet payload "sub" = some sub ∧ pyTruthy sub = true
          ∧ ∃ i, pyIntOf sub = some i ∧ firstById db i = some u := by
  by_cases he : token = .empty
  · subst he; simp [get_current_user] at h
  · simp only [get_current_user] at h
    rw [if_neg he] at h
    cases hd : decode_access_token token now with
    | error e => rw [hd] at h; simp at h
    | ok payload =>
      rw [hd] at h
      dsimp only at h
      obtain ⟨hts, hexp⟩ := decode_access_token_ok token now payload hd
      refine ⟨payload, hts, ?_, ?_⟩
      · intro e hee
        obtain ⟨e', h1, hlt⟩ := hexp _ hee
        cases h1
        exact hlt
      · cases hs : dictGet payload "sub" with
        | none => rw [hs] at h; simp at h
        | some sub =>
          rw [hs] at h
          dsimp only at h
          by_cases htr : pyTruthy sub = false
          · rw [if_pos htr] at h; simp at h
          · rw [if_neg htr] at h
            refine ⟨sub, rfl, by simpa using htr, ?_⟩
            cases hi : pyIntOf sub with
            | none => rw [hi] at h; simp at h
            | some i =>
              rw [hi] at h
              dsimp only at h
              cases hf : firstById db i with
              | none => rw [hf] at h; simp at h
              | some u' =>
                rw [hf] at h
                simp only [GuardResult.ok.injEq] at h
                subst h
                exact ⟨i, rfl, hf⟩

/-- C2 witness: applying the invariant to the concrete accepted token for
account 1. -/
theorem accepted_token_invariant_witness :
    ∃ payload,
      TokenBytes.signed [("sub", JVal.str "1"), ("exp", JVal.time 100)]
          SECRET_KEY ALGORITHM
        = .signed payload SECRET_KEY ALGORITHM
      ∧ (∀ e, dictGet payload "exp" = some (.time e) → (0 : Int) < e)
      ∧ ∃ sub, dictGet payload "sub" = some sub ∧ pyTruthy sub = true
          ∧ ∃ i, pyIntOf sub = some i
              ∧ firstById [⟨1, "bob", "bob@x.com", .vdigest ⟨0, 0⟩, false⟩] i
                  = some ⟨1, "bob", "bob@x.com", .vdigest ⟨0, 0⟩, false⟩ :=
  accepted_token_invariant
    (.signed [("sub", .str "1"), ("exp", .time 100)] SECRET_KEY ALGORITHM)
    [⟨1, "bob", "bob@x.com", .vdigest ⟨0, 0⟩, false⟩] 0
    ⟨1, "bob", "bob@x.com", .vdigest ⟨0, 0⟩, false⟩ (by decide)

end IS601
